import Mathlib

/-!
Verification of the folder-to-session ingestion pipeline of the photobooth
gallery server (server/watcher.js and the manual scan-media route).

The watcher code is embedded shallowly: pure helpers become Lean functions,
filesystem state becomes an explicit `Folder` value, the results of the
external media-transform library (sharp) become an explicit `MediaOracle`,
and the SQLite database becomes an explicit `DB` value threaded through the
functions.  Machine timers and the event loop are modelled as explicit
action traces.
-/

namespace NewBooth

/-- JS `String.prototype.toLowerCase`, restricted to the ASCII extensions the
watcher compares against. -/
def toLowerStr (s : String) : String := String.mk (s.data.map Char.toLower)

/-- JS `str.startsWith(c)` for a single character. -/
def startsWithCh (s : String) (c : Char) : Bool :=
  match s.data with
  | [] => false
  | d :: _ => d = c

/-- The suffix of a character list beginning at its last `'.'`, if any. -/
def extSuffix : List Char → Option (List Char)
  | [] => none
  | c :: rest =>
    match extSuffix rest with
    | some suf => some suf
    | none => if c = '.' then some (c :: rest) else none

/-- JS `path.extname` on a plain basename: the substring from the last dot to
the end; a dot in the first position does not count (".hidden" has no
extension) and a dotless name yields `""`. -/
def extname (s : String) : String :=
  match s.data with
  | [] => ""
  | _ :: rest =>
    match extSuffix rest with
    | some suf => String.mk suf
    | none => ""

/-- JS `path.join` for a directory and a plain child name (the only shape the
watcher joins; no normalization is involved). -/
def pathJoin (dir child : String) : String := dir ++ "/" ++ child

/-- watcher.js line 343. -/
def SUPPORTED_IMAGE_TYPES : List String := [".jpg", ".jpeg", ".png", ".gif", ".webp"]

/-- watcher.js line 344. -/
def SUPPORTED_VIDEO_TYPES : List String := [".mp4", ".mov", ".avi", ".webm"]

/-- watcher.js line 345. -/
def SUPPORTED_MEDIA_TYPES : List String := SUPPORTED_IMAGE_TYPES ++ SUPPORTED_VIDEO_TYPES

/-- watcher.js line 381: minimum files required for a valid session. -/
def MIN_FILES_PER_SESSION : Nat := 2

/-- watcher.js line 380: debounce delay in milliseconds. -/
def FOLDER_DEBOUNCE_DELAY : Nat := 5000

/-- watcher.js `isVideoFile` (lines 348-351). -/
def isVideoFile (filename : String) : Bool :=
  SUPPORTED_VIDEO_TYPES.contains (toLowerStr (extname filename))

/-- watcher.js `isImageFile` (lines 354-357). -/
def isImageFile (filename : String) : Bool :=
  SUPPORTED_IMAGE_TYPES.contains (toLowerStr (extname filename))

/-- One directory entry as reported by `fs.readdirSync` plus its `fs.statSync`
verdict. The list order of `Folder.entries` is the enumeration order in which
`readdirSync` returns the names. -/
structure Entry where
  name : String
  isFile : Bool
deriving Repr, DecidableEq

/-- The filesystem state of one watched subfolder at some instant. -/
structure Folder where
  isDirectory : Bool
  entries : List Entry
deriving Repr, DecidableEq

/-- watcher.js `scanFolderTree` result (lines 385-390). -/
structure ScanResult where
  files : List String
  totalFiles : Nat
  isValid : Bool
deriving Repr, DecidableEq

/-- watcher.js line 407. -/
def systemFolders : List String :=
  [".DS_Store", ".Spotlight-V100", ".Trashes", ".TemporaryItems", "Thumbs.db"]

/-- The per-entry filter applied by the loop of `scanFolderTree`
(lines 400-422): skip dot/underscore names, skip known OS artifacts, keep
regular files whose lowercased extension is a supported media type. -/
def keepEntry (e : Entry) : Bool :=
  !(startsWithCh e.name '_' || startsWithCh e.name '.')
    && !(systemFolders.contains e.name)
    && e.isFile
    && SUPPORTED_MEDIA_TYPES.contains (toLowerStr (extname e.name))

/-- watcher.js `scanFolderTree` (lines 384-432).  A missing or non-directory
path, like a thrown filesystem error, degrades to the empty invalid result. -/
def scanFolderTree (folder : Folder) : ScanResult :=
  if !folder.isDirectory then { files := [], totalFiles := 0, isValid := false }
  else
    let fs := (folder.entries.filter keepEntry).map Entry.name
    { files := fs
      totalFiles := fs.length
      isValid := decide (fs.length ≥ MIN_FILES_PER_SESSION) }

/-- watcher.js `validateFolderConsistency` (lines 435-456): re-scan and require
the count to equal the expectation and to still meet the minimum. -/
def validateFolderConsistency (folder : Folder) (expectedCount : Nat) : Bool :=
  let currentScan := scanFolderTree folder
  if currentScan.totalFiles ≠ expectedCount then false
  else if currentScan.totalFiles < MIN_FILES_PER_SESSION then false
  else true

example : extname "a.JPG" = ".JPG" := by decide
example : toLowerStr ".JPG" = ".jpg" := by decide
example : isImageFile "photo1.JPeG" = true := by decide
example : isImageFile "clip.mp4" = false := by decide
example : isVideoFile "clip.mp4" = true := by decide
example : isImageFile "noext" = false := by decide
example :
    scanFolderTree
      { isDirectory := true
        entries := [⟨"a.jpg", true⟩, ⟨"_qrcode.png", true⟩, ⟨".DS_Store", true⟩,
                    ⟨"sub", false⟩, ⟨"b.mp4", true⟩, ⟨"notes.txt", true⟩] }
      = { files := ["a.jpg", "b.mp4"], totalFiles := 2, isValid := true } := by decide

/-! ## External media transforms (sharp)

The heavy lifting of the per-file branch of `scanAndProcessSession`
(lines 757-849) is done by the external sharp library and `fs.copyFileSync`.
Their outcomes are captured by an oracle: for images, what
`sharp(path).metadata()` reports (with `none` for a metadata error or the
30-second timeout), and whether the remaining copy/encode steps of the branch
succeed; for videos, whether the copy-and-placeholder steps succeed. -/

structure MediaOracle where
  imageMeta : String → Option (Nat × Nat)
  imageOk : String → Bool
  videoOk : String → Bool

/-- Whether one file of the per-file loop of `scanAndProcessSession`
(lines 759-849) ends up pushed onto `validatedFiles`: a video whose
copy-and-placeholder steps succeed; an image whose metadata is readable,
whose width and height are both at least 100 (line 807), and whose remaining
steps succeed; nothing else. A thrown error in any step is caught and the
file is skipped (lines 841-848). -/
def keepFile (o : MediaOracle) (f : String) : Bool :=
  if isVideoFile f then o.videoOk f
  else if isImageFile f then
    match o.imageMeta f with
    | none => false
    | some (w, h) => !(w < 100 || h < 100) && o.imageOk f
  else false

/-- The per-file loop of `scanAndProcessSession` (lines 757-849): traverse
`photoFiles` in order, appending each successfully transformed file to
`validatedFiles`. -/
def transformLoop (o : MediaOracle) (photoFiles : List String) : List String :=
  photoFiles.foldl (fun validated f => if keepFile o f then validated ++ [f] else validated) []

/-! ## The persisted store -/

/-- A row of the `sessions` table (the columns the watcher core touches). -/
structure SessionRow where
  session_uuid : String
  folder_name : String
  status : String
  access_token : String
deriving Repr, DecidableEq

/-- A row of the `photos` table (the columns the watcher core touches). -/
structure PhotoRow where
  session_uuid : String
  photo_number : Nat
  original_path : String
  processed_path : String
deriving Repr, DecidableEq

structure DB where
  sessions : List SessionRow
  photos : List PhotoRow
deriving Repr, DecidableEq

/-- better-sqlite3 `db.transaction(fn)` contract (the store is an external
ACID collaborator): the body runs atomically; if it throws (`none`), every
statement of the body is rolled back and the database is unchanged. -/
def dbTransaction (body : DB → Option (DB × Nat)) (db : DB) : DB × Option Nat :=
  match body db with
  | some (db2, n) => (db2, some n)
  | none => (db, none)

/-- The rows built by the insert loop of `insertPhotosTxn` (lines 731-748):
`photo_number = i + 1` by position, `original_path` under the session folder,
`processed_path` the numbered thumbnail in the gallery folder. -/
def newPhotoRows (uuid folderPath galleryPath : String) (files : List String) : List PhotoRow :=
  files.enum.map (fun p =>
    { session_uuid := uuid
      photo_number := p.1 + 1
      original_path := pathJoin folderPath p.2
      processed_path := pathJoin galleryPath ("photo_" ++ toString (p.1 + 1) ++ ".jpg") })

/-- watcher.js `insertPhotosTxn` (lines 720-755): inside one transaction,
`DELETE FROM photos WHERE session_uuid = ?` then insert the fresh rows; a
thrown insert error (`txnFails`) is re-thrown to roll the transaction back.
Returns the updated database and `some processedCount` on success, `none`
when the transaction threw. -/
def insertPhotosTxn (txnFails : Bool) (uuid folderPath galleryPath : String)
    (files : List String) (db : DB) : DB × Option Nat :=
  dbTransaction
    (fun d =>
      let afterDelete : DB :=
        { d with photos := d.photos.filter (fun p => !(p.session_uuid == uuid)) }
      if txnFails then none
      else some ({ afterDelete with
                    photos := afterDelete.photos ++ newPhotoRows uuid folderPath galleryPath files },
                 files.length))
    db

/-! ## The session reconciler -/

/-- Observable side effects of one `scanAndProcessSession` run, in program
order: the `INSERT INTO sessions` of a new session (line 670), the QR file
write into the source folder (line 685), the `UPDATE sessions SET status =
active` of an existing session (line 700), one transform attempt per
candidate file (lines 759-849), the photo-replacing transaction (line 852)
and the gallery page regeneration (line 856). -/
inductive Effect where
  | sessionInsert (uuid : String)
  | qrWrite (uuid : String)
  | sessionUpdate (uuid : String)
  | transformAttempt (file : String)
  | photosTxn (uuid : String)
  | galleryHTML (uuid : String)
deriving Repr, DecidableEq

/-- The run-time environment of one `scanAndProcessSession` call: the state of
the session folder when the function re-scans it (line 647), the external
transform outcomes, whether the photo transaction throws, and the token that
`crypto.randomBytes` would produce for a new session. -/
structure RunEnv where
  folder : Folder
  oracle : MediaOracle
  txnFails : Bool
  accessToken : String

structure RunResult where
  db : DB
  effects : List Effect

/-- watcher.js line 660: `const sessionId = sessionFolderName` — the session
identifier is derived deterministically from the folder name. -/
def derivedSessionId (sessionFolderName : String) : String := sessionFolderName

/-- Lines 653-657 of `scanAndProcessSession`: when the consistency re-scan
found a different count than the caller's snapshot, the fresher scan's file
list is used; otherwise the caller's list is kept. -/
def usedFiles (env : RunEnv) (photoFiles : List String) : List String :=
  if (scanFolderTree env.folder).totalFiles ≠ photoFiles.length
  then (scanFolderTree env.folder).files else photoFiles

/-- The session row inserted at lines 670-674: folder name as
`session_uuid`, status `active`, the freshly generated access token. -/
def newSessionRow (env : RunEnv) (sessionFolderName : String) : SessionRow :=
  { session_uuid := derivedSessionId sessionFolderName
    folder_name := sessionFolderName
    status := "active"
    access_token := env.accessToken }

/-- The `UPDATE sessions SET status = 'active' ... WHERE session_uuid = ?`
of lines 700-704. -/
def activateSession (uuid : String) (l : List SessionRow) : List SessionRow :=
  l.map (fun s => if s.session_uuid == uuid then { s with status := "active" } else s)

/-- The tail of `scanAndProcessSession` after the session row exists
(lines 711-856): run the per-file transform loop over the candidate list,
then run `insertPhotosTxn` on the validated list; a transaction throw is
caught by the outer handler, so the gallery page is regenerated only on
transaction success. -/
def processMedia (env : RunEnv) (uuid folderPath galleryPath : String)
    (photoFiles : List String) (db : DB) (effs : List Effect) : RunResult :=
  let validatedFiles := transformLoop env.oracle photoFiles
  let attempts := photoFiles.map Effect.transformAttempt
  match insertPhotosTxn env.txnFails uuid folderPath galleryPath validatedFiles db with
  | (db2, some _) => ⟨db2, effs ++ attempts ++ [Effect.photosTxn uuid, Effect.galleryHTML uuid]⟩
  | (db2, none) => ⟨db2, effs ++ attempts ++ [Effect.photosTxn uuid]⟩

/-- watcher.js `scanAndProcessSession` (lines 632-861).  Gates in source
order: the strict minimum-files validation (line 635), the directory check
(line 641), the consistency re-scan (lines 647-651), the switch to the
fresher file list on a count change (lines 653-657); then the session
lookup/insert/update (lines 663-709) followed by media processing. -/
def scanAndProcessSession (env : RunEnv) (sessionFolderName folderPath galleryRoot : String)
    (photoFiles : List String) (db : DB) : RunResult :=
  if photoFiles.length < MIN_FILES_PER_SESSION then ⟨db, []⟩
  else if !env.folder.isDirectory then ⟨db, []⟩
  else
    let finalScan := scanFolderTree env.folder
    if finalScan.totalFiles < MIN_FILES_PER_SESSION then ⟨db, []⟩
    else
      let photoFiles2 := usedFiles env photoFiles
      let sessionId := derivedSessionId sessionFolderName
      let galleryPath := pathJoin galleryRoot sessionId
      match db.sessions.find? (fun s => s.session_uuid == sessionId) with
      | none =>
        let db1 : DB := { db with sessions := db.sessions ++ [newSessionRow env sessionFolderName] }
        processMedia env sessionId folderPath galleryPath photoFiles2 db1
          [Effect.sessionInsert sessionId, Effect.qrWrite sessionId]
      | some _ =>
        let db1 : DB := { db with sessions := activateSession sessionId db.sessions }
        processMedia env sessionId folderPath galleryPath photoFiles2 db1
          [Effect.sessionUpdate sessionId]

/-- The debounce-timer callback of `processPhotoSession` (lines 882-916):
initial scan (on folder state `s1`), minimum-files gate, the settle delay and
re-scan (state `s2`, whose files are what gets processed), the consistency
gate (which re-scans again, state `s3`, and compares against the initial
count), and finally the reconciliation itself. -/
def debounceTimerBody (s1 s2 s3 : Folder) (env : RunEnv)
    (sessionFolderName folderPath galleryRoot : String) (db : DB) : RunResult :=
  let initialScan := scanFolderTree s1
  if initialScan.totalFiles < MIN_FILES_PER_SESSION then ⟨db, []⟩
  else
    let finalScan := scanFolderTree s2
    if !validateFolderConsistency s3 initialScan.totalFiles then ⟨db, []⟩
    else scanAndProcessSession env sessionFolderName folderPath galleryRoot finalScan.files db

/-! ## The debounce coordinator -/

/-- The per-folder debounce discipline of `processPhotoSession`
(lines 871-923) applied to a time-ordered list of file events for one folder:
each event cancels the pending timer (`clearTimeout`, line 873) and arms a
fresh one at `eventTime + delay` (line 916); a pending timer whose fire time
has passed before the next event fires and invokes one reconciliation
attempt. Returns the list of fire times. -/
def debounceFires (delay : Nat) : List Nat → Option Nat → List Nat
  | [], none => []
  | [], some p => [p]
  | t :: rest, none => debounceFires delay rest (some (t + delay))
  | t :: rest, some p =>
    if p ≤ t then p :: debounceFires delay rest (some (t + delay))
    else debounceFires delay rest (some (t + delay))

/-- `Burst delay prev ts`: every event in `ts` arrives no earlier than its
predecessor and strictly within `delay` of it. -/
def Burst (delay : Nat) : Nat → List Nat → Prop
  | _, [] => True
  | prev, t :: rest => prev ≤ t ∧ t < prev + delay ∧ Burst delay t rest

/-! ## The watcher event loop for one folder -/

/-- The scheduler-visible actions that can involve one folder: a (debounced)
file event reaching `processPhotoSession`, the firing of an armed debounce
timer (which starts a reconciliation and runs until a matching
`reconcileDone`), a manual `POST /:sessionId/scan-media` call
(sessions.js lines 104-106, which invokes `scanAndProcessSession` directly),
and the completion of an in-flight reconciliation (whose `finally` clause,
line 914, deletes the folder's map entry). -/
inductive WatchAction where
  | fileEvent (t : Nat)
  | timerFire (t : Nat)
  | manualScan
  | reconcileDone
deriving Repr, DecidableEq

/-- The mutable per-folder state of the watcher: fire times of armed
(set, uncancelled, unfired) timers, the fire time held in the
`folderProcessingTimers` map entry for this folder, and the number of
reconciliations currently executing for this folder. -/
structure FolderSched where
  armedTimers : List Nat
  mapEntry : Option Nat
  inFlight : Nat
deriving Repr, DecidableEq

/-- One scheduler step, straight from the source: a file event clears the
timer referenced by the map entry and arms a fresh full-delay timer
(lines 871-875 and 916-922); a due armed timer fires, is consumed, and its
callback's reconciliation becomes in-flight; a manual scan starts a
reconciliation with no guard at all; a finishing reconciliation decrements
the in-flight count and deletes the map entry (line 914). -/
def schedStep (s : FolderSched) : WatchAction → FolderSched
  | .fileEvent t =>
    let cancelled :=
      match s.mapEntry with
      | some p => s.armedTimers.erase p
      | none => s.armedTimers
    { s with armedTimers := cancelled ++ [t + FOLDER_DEBOUNCE_DELAY]
             mapEntry := some (t + FOLDER_DEBOUNCE_DELAY) }
  | .timerFire t =>
    if s.armedTimers.contains t then
      { s with armedTimers := s.armedTimers.erase t, inFlight := s.inFlight + 1 }
    else s
  | .manualScan => { s with inFlight := s.inFlight + 1 }
  | .reconcileDone => { s with inFlight := s.inFlight - 1, mapEntry := none }

def schedInit : FolderSched := { armedTimers := [], mapEntry := none, inFlight := 0 }

def schedRun (acts : List WatchAction) : FolderSched := acts.foldl schedStep schedInit

def isFileEvent : WatchAction → Bool
  | .fileEvent _ => true
  | _ => false

def isManualScan : WatchAction → Bool
  | .manualScan => true
  | _ => false

/-! ## The thumbnail resize mode -/

/-- The `fit` values of sharp's resize API. -/
inductive SharpFit where
  | cover
  | contain
  | fill
  | inside
  | outside
deriving Repr, DecidableEq

/-- The resize fit the watcher passes for regular-image thumbnails
(line 829: `fit: 'cover', position: 'center'`). -/
def watcherImageThumbFit : SharpFit := SharpFit.cover

/-- The resize fit the watcher passes for the static GIF poster frame
(line 821: `fit: 'cover', position: 'center'`). -/
def watcherGifThumbFit : SharpFit := SharpFit.cover

/-- sharp's documented resize semantics, by fit, for a `sw × sh` source on a
`tw × th` target: `cover` scales to fill the whole target and centre-crops,
so it discards source pixels exactly when the aspect ratios differ; `contain`
letterboxes, `inside`/`outside` only bound the dimensions, and `fill`
stretches — none of those four discards source content. -/
def fitPreservesAllContent (fit : SharpFit) (sw sh tw th : Nat) : Bool :=
  match fit with
  | SharpFit.cover => sw * th == sh * tw
  | _ => true

/-- Thumbnail canvas passed at lines 821 and 829. -/
def THUMB_WIDTH : Nat := 1920

def THUMB_HEIGHT : Nat := 1080

/-! ## Helper lemmas -/

theorem transformLoop_aux (o : MediaOracle) (fs : List String) (acc : List String) :
    fs.foldl (fun validated f => if keepFile o f then validated ++ [f] else validated) acc
      = acc ++ fs.filter (keepFile o) := by
  induction fs generalizing acc with
  | nil => simp
  | cons f rest ih =>
    simp only [List.foldl_cons, List.filter_cons]
    cases h : keepFile o f with
    | true => simp [h, ih]
    | false => simp [h, ih]

theorem transformLoop_eq_filter (o : MediaOracle) (fs : List String) :
    transformLoop o fs = fs.filter (keepFile o) := by
  simpa using transformLoop_aux o fs []

theorem newPhotoRows_map_number (uuid fp gp : String) (files : List String) :
    (newPhotoRows uuid fp gp files).map PhotoRow.photo_number
      = (List.range files.length).map (· + 1) := by
  unfold newPhotoRows
  rw [List.map_map, ← List.enum_map_fst files, List.map_map]
  rfl

theorem newPhotoRows_uuid (uuid fp gp : String) (files : List String) :
    ∀ r ∈ newPhotoRows uuid fp gp files, r.session_uuid = uuid := by
  intro r hr
  unfold newPhotoRows at hr
  simp only [List.mem_map] at hr
  obtain ⟨p, _, rfl⟩ := hr
  rfl

theorem newPhotoRows_length (uuid fp gp : String) (files : List String) :
    (newPhotoRows uuid fp gp files).length = files.length := by
  simp [newPhotoRows]

theorem newPhotoRows_get (uuid fp gp : String) (files : List String) (i : Nat)
    (h : i < files.length) (h2 : i < (newPhotoRows uuid fp gp files).length) :
    (newPhotoRows uuid fp gp files).get ⟨i, h2⟩
      = { session_uuid := uuid
          photo_number := i + 1
          original_path := pathJoin fp (files.get ⟨i, h⟩)
          processed_path := pathJoin gp ("photo_" ++ toString (i + 1) ++ ".jpg") } := by
  unfold newPhotoRows
  unfold newPhotoRows at h2
  simp only [List.get_eq_getElem, List.getElem_map, List.getElem_enum]

theorem sessionPhotos_after_txn (uuid fp gp : String) (files : List String) (db : DB) :
    ((db.photos.filter (fun p => !(p.session_uuid == uuid)))
        ++ newPhotoRows uuid fp gp files).filter (fun p => p.session_uuid == uuid)
      = newPhotoRows uuid fp gp files := by
  rw [List.filter_append]
  have h1 : (db.photos.filter (fun p => !(p.session_uuid == uuid))).filter
      (fun p => p.session_uuid == uuid) = [] := by
    rw [List.filter_filter]
    apply List.filter_eq_nil_iff.mpr
    intro a _
    cases h : a.session_uuid == uuid <;> simp [h]
  have h2 : (newPhotoRows uuid fp gp files).filter (fun p => p.session_uuid == uuid)
      = newPhotoRows uuid fp gp files := by
    apply List.filter_eq_self.mpr
    intro a ha
    simp [newPhotoRows_uuid uuid fp gp files a ha]
  rw [h1, h2, List.nil_append]

theorem pathJoin_inj (dir : String) {a b : String} (h : pathJoin dir a = pathJoin dir b) :
    a = b := by
  unfold pathJoin at h
  have hd : (dir ++ "/" ++ a).data = (dir ++ "/" ++ b).data := by rw [h]
  simp only [String.data_append, List.append_assoc, List.append_cancel_left_eq] at hd
  exact String.ext hd

theorem insertPhotosTxn_ok (uuid fp gp : String) (files : List String) (db : DB) :
    insertPhotosTxn false uuid fp gp files db
      = ({ db with photos := db.photos.filter (fun p => !(p.session_uuid == uuid))
                      ++ newPhotoRows uuid fp gp files },
         some files.length) := by
  rfl

theorem insertPhotosTxn_throw (uuid fp gp : String) (files : List String) (db : DB) :
    insertPhotosTxn true uuid fp gp files db = (db, none) := by
  rfl

theorem processMedia_ok (env : RunEnv) (uuid fp gp : String) (photoFiles : List String)
    (db : DB) (effs : List Effect) (htxn : env.txnFails = false) :
    processMedia env uuid fp gp photoFiles db effs
      = ⟨{ db with photos := db.photos.filter (fun p => !(p.session_uuid == uuid))
              ++ newPhotoRows uuid fp gp (transformLoop env.oracle photoFiles) },
         effs ++ photoFiles.map Effect.transformAttempt
              ++ [Effect.photosTxn uuid, Effect.galleryHTML uuid]⟩ := by
  unfold processMedia
  rw [htxn]
  rfl

theorem processMedia_sessions (env : RunEnv) (uuid fp gp : String) (files : List String)
    (db : DB) (effs : List Effect) :
    (processMedia env uuid fp gp files db effs).db.sessions = db.sessions := by
  unfold processMedia insertPhotosTxn dbTransaction
  cases env.txnFails <;> rfl

theorem processMedia_effects (env : RunEnv) (uuid fp gp : String) (files : List String)
    (db : DB) (effs : List Effect) :
    ∃ rest, (processMedia env uuid fp gp files db effs).effects
      = effs ++ files.map Effect.transformAttempt ++ rest := by
  unfold processMedia insertPhotosTxn dbTransaction
  cases env.txnFails
  · exact ⟨_, rfl⟩
  · exact ⟨_, rfl⟩

theorem activateSession_map_uuid (uuid : String) (l : List SessionRow) :
    (activateSession uuid l).map SessionRow.session_uuid = l.map SessionRow.session_uuid := by
  unfold activateSession
  rw [List.map_map]
  apply List.map_congr_left
  intro s _
  by_cases h : s.session_uuid == uuid
  · simp [Function.comp, h]
  · simp [Function.comp, h]

theorem activateSession_found (uuid : String) (l : List SessionRow) (s : SessionRow)
    (h : l.find? (fun r => r.session_uuid == uuid) = some s) :
    (activateSession uuid l).find? (fun r => r.session_uuid == uuid)
      = some { s with status := "active" } := by
  unfold activateSession
  rw [List.find?_map]
  have hp : ((fun r : SessionRow => r.session_uuid == uuid)
        ∘ (fun s => if s.session_uuid == uuid then { s with status := "active" } else s))
      = (fun r : SessionRow => r.session_uuid == uuid) := by
    funext r
    by_cases hr : r.session_uuid == uuid
    · simp [Function.comp, hr]
    · simp [Function.comp, hr]
  rw [hp, h]
  have hs := List.find?_some h
  simp only at hs
  simp [hs]
  intro hne
  exact absurd (by simpa using hs) hne

theorem scanAndProcessSession_new (env : RunEnv) (F fp gr : String)
    (photoFiles : List String) (db : DB)
    (h1 : ¬ photoFiles.length < MIN_FILES_PER_SESSION)
    (h2 : env.folder.isDirectory = true)
    (h3 : ¬ (scanFolderTree env.folder).totalFiles < MIN_FILES_PER_SESSION)
    (hfind : db.sessions.find? (fun s => s.session_uuid == derivedSessionId F) = none) :
    scanAndProcessSession env F fp gr photoFiles db
      = processMedia env (derivedSessionId F) fp (pathJoin gr (derivedSessionId F))
          (usedFiles env photoFiles)
          { db with sessions := db.sessions ++ [newSessionRow env F] }
          [Effect.sessionInsert (derivedSessionId F), Effect.qrWrite (derivedSessionId F)] := by
  unfold scanAndProcessSession
  rw [if_neg h1]
  simp only [h2, Bool.not_true, Bool.false_eq_true, if_false, if_neg h3, hfind]

theorem scanAndProcessSession_existing (env : RunEnv) (F fp gr : String)
    (photoFiles : List String) (db : DB) (s : SessionRow)
    (h1 : ¬ photoFiles.length < MIN_FILES_PER_SESSION)
    (h2 : env.folder.isDirectory = true)
    (h3 : ¬ (scanFolderTree env.folder).totalFiles < MIN_FILES_PER_SESSION)
    (hfind : db.sessions.find? (fun r => r.session_uuid == derivedSessionId F) = some s) :
    scanAndProcessSession env F fp gr photoFiles db
      = processMedia env (derivedSessionId F) fp (pathJoin gr (derivedSessionId F))
          (usedFiles env photoFiles)
          { db with sessions := activateSession (derivedSessionId F) db.sessions }
          [Effect.sessionUpdate (derivedSessionId F)] := by
  unfold scanAndProcessSession
  rw [if_neg h1]
  simp only [h2, Bool.not_true, Bool.false_eq_true, if_false, if_neg h3, hfind]

theorem image_not_video {f : String} (himg : isImageFile f = true) : isVideoFile f = false := by
  unfold isImageFile at himg
  unfold isVideoFile
  have hgen : ∀ e : String, SUPPORTED_IMAGE_TYPES.contains e = true →
      SUPPORTED_VIDEO_TYPES.contains e = false := by
    intro e he
    simp [SUPPORTED_IMAGE_TYPES] at he
    rcases he with rfl | rfl | rfl | rfl | rfl <;> decide
  exact hgen _ himg

theorem newPhotoRows_path (uuid fp gp : String) (files : List String) :
    ∀ r ∈ newPhotoRows uuid fp gp files, ∃ f ∈ files, r.original_path = pathJoin fp f := by
  intro r hr
  unfold newPhotoRows at hr
  simp only [List.mem_map] at hr
  obtain ⟨p, hp, rfl⟩ := hr
  exact ⟨p.2, List.snd_mem_of_mem_enum hp, rfl⟩

theorem scanAndProcessSession_photos (env : RunEnv) (F fp gr : String)
    (photoFiles : List String) (db : DB)
    (h1 : ¬ photoFiles.length < MIN_FILES_PER_SESSION)
    (h2 : env.folder.isDirectory = true)
    (h3 : ¬ (scanFolderTree env.folder).totalFiles < MIN_FILES_PER_SESSION)
    (htxn : env.txnFails = false) :
    (scanAndProcessSession env F fp gr photoFiles db).db.photos.filter
        (fun p => p.session_uuid == derivedSessionId F)
      = newPhotoRows (derivedSessionId F) fp (pathJoin gr (derivedSessionId F))
          (transformLoop env.oracle (usedFiles env photoFiles)) := by
  cases hfind : db.sessions.find? (fun r => r.session_uuid == derivedSessionId F) with
  | none =>
    rw [scanAndProcessSession_new env F fp gr photoFiles db h1 h2 h3 hfind,
      processMedia_ok env _ fp _ _ _ _ htxn]
    exact sessionPhotos_after_txn _ fp _ _ _
  | some s =>
    rw [scanAndProcessSession_existing env F fp gr photoFiles db s h1 h2 h3 hfind,
      processMedia_ok env _ fp _ _ _ _ htxn]
    exact sessionPhotos_after_txn _ fp _ _ _

/-! ## Claims -/

/-- C1: after a successful reconciliation in which exactly N candidate files
are successfully transformed (N = length of the validated list produced by
the per-file loop), the persisted Photo set for the session contains exactly
the photo numbers 1..N, without duplicates and without gaps, each number
assigned by position in the final validated file list. -/
theorem dense_numbering (env : RunEnv) (F fp gr : String) (photoFiles : List String) (db : DB)
    (h1 : ¬ photoFiles.length < MIN_FILES_PER_SESSION)
    (h2 : env.folder.isDirectory = true)
    (h3 : ¬ (scanFolderTree env.folder).totalFiles < MIN_FILES_PER_SESSION)
    (htxn : env.txnFails = false) :
    ((scanAndProcessSession env F fp gr photoFiles db).db.photos.filter
          (fun p => p.session_uuid == derivedSessionId F)).map PhotoRow.photo_number
        = (List.range (transformLoop env.oracle (usedFiles env photoFiles)).length).map (· + 1)
      ∧ (((scanAndProcessSession env F fp gr photoFiles db).db.photos.filter
          (fun p => p.session_uuid == derivedSessionId F)).map PhotoRow.photo_number).Nodup
      ∧ ∀ i (h : i < (transformLoop env.oracle (usedFiles env photoFiles)).length),
          ∃ r ∈ (scanAndProcessSession env F fp gr photoFiles db).db.photos.filter
              (fun p => p.session_uuid == derivedSessionId F),
            r.photo_number = i + 1
              ∧ r.original_path
                  = pathJoin fp
                      ((transformLoop env.oracle (usedFiles env photoFiles)).get ⟨i, h⟩) := by
  have hphotos := scanAndProcessSession_photos env F fp gr photoFiles db h1 h2 h3 htxn
  refine ⟨?_, ?_, ?_⟩
  · rw [hphotos, newPhotoRows_map_number]
  · rw [hphotos, newPhotoRows_map_number]
    exact List.Nodup.map (fun a b hab => by simpa using hab) (List.nodup_range _)
  · intro i h
    rw [hphotos]
    have hlen : i < (newPhotoRows (derivedSessionId F) fp (pathJoin gr (derivedSessionId F))
        (transformLoop env.oracle (usedFiles env photoFiles))).length := by
      rw [newPhotoRows_length]; exact h
    refine ⟨_, List.get_mem _ i hlen, ?_⟩
    rw [newPhotoRows_get _ fp _ _ i h hlen]
    exact ⟨rfl, rfl⟩

/-- Witness for C1 at a concrete two-image folder. -/
theorem dense_numbering_witness :
    let env : RunEnv :=
      { folder := { isDirectory := true, entries := [⟨"a.jpg", true⟩, ⟨"b.jpg", true⟩] }
        oracle :=
          { imageMeta := fun _ => some (500, 500)
            imageOk := fun _ => true
            videoOk := fun _ => true }
        txnFails := false
        accessToken := "tok" }
    ((scanAndProcessSession env "Event1" "/photos/Event1" "gal" ["a.jpg", "b.jpg"]
            ⟨[], []⟩).db.photos.filter
          (fun p => p.session_uuid == derivedSessionId "Event1")).map PhotoRow.photo_number
        = (List.range (transformLoop env.oracle
            (usedFiles env ["a.jpg", "b.jpg"])).length).map (· + 1) := by
  intro env
  exact (dense_numbering env "Event1" "/photos/Event1" "gal" ["a.jpg", "b.jpg"] ⟨[], []⟩
    (by decide) (by decide) (by decide) (by decide)).1

/-- C2: the photo rows of a session are replaced inside one atomic
transaction — delete all existing rows for the session, then insert the new
set.  If the transaction throws, the whole database (in particular the
previous Photo set) is left intact; if it commits, the session's rows are
exactly the freshly inserted set and every other session's rows are
untouched — never a mixture of old and new rows. -/
theorem photos_txn_atomic (uuid fp gp : String) (files : List String) (db : DB) :
    (insertPhotosTxn true uuid fp gp files db).1 = db
    ∧ (insertPhotosTxn false uuid fp gp files db).1.photos
        = db.photos.filter (fun p => !(p.session_uuid == uuid)) ++ newPhotoRows uuid fp gp files
    ∧ (insertPhotosTxn false uuid fp gp files db).1.photos.filter
          (fun p => p.session_uuid == uuid)
        = newPhotoRows uuid fp gp files
    ∧ (insertPhotosTxn false uuid fp gp files db).1.photos.filter
          (fun p => !(p.session_uuid == uuid))
        = db.photos.filter (fun p => !(p.session_uuid == uuid)) := by
  refine ⟨rfl, rfl, ?_, ?_⟩
  · rw [insertPhotosTxn_ok]
    exact sessionPhotos_after_txn uuid fp gp files db
  · rw [insertPhotosTxn_ok]
    show (List.filter _ _ ++ _).filter _ = _
    rw [List.filter_append, List.filter_filter]
    have h1 : (newPhotoRows uuid fp gp files).filter
        (fun p => !(p.session_uuid == uuid)) = [] := by
      apply List.filter_eq_nil_iff.mpr
      intro a ha
      simp [newPhotoRows_uuid uuid fp gp files a ha]
    rw [h1, List.append_nil]
    apply List.filter_congr
    intro a _
    cases h : a.session_uuid == uuid <;> simp [h]

/-- C3: the session identifier is derived deterministically from the folder
name (reconciling twice resolves to the same `session_uuid` both times), and
a soft-deleted session whose folder is re-populated and rescanned is
reactivated to status `active` under the same `session_uuid` — the update
branch runs, not a fresh insert, and the set of stored session identifiers
is unchanged by both runs. -/
theorem session_identity_resurrection
    (env1 env2 : RunEnv) (F fp gr : String) (files1 files2 : List String)
    (db : DB) (s : SessionRow)
    (h11 : ¬ files1.length < MIN_FILES_PER_SESSION)
    (h12 : env1.folder.isDirectory = true)
    (h13 : ¬ (scanFolderTree env1.folder).totalFiles < MIN_FILES_PER_SESSION)
    (h21 : ¬ files2.length < MIN_FILES_PER_SESSION)
    (h22 : env2.folder.isDirectory = true)
    (h23 : ¬ (scanFolderTree env2.folder).totalFiles < MIN_FILES_PER_SESSION)
    (hfind : db.sessions.find? (fun r => r.session_uuid == derivedSessionId F) = some s)
    (_hdel : s.status = "deleted") :
    derivedSessionId F = F
    ∧ (scanAndProcessSession env1 F fp gr files1 db).effects.head?
        = some (Effect.sessionUpdate (derivedSessionId F))
    ∧ (scanAndProcessSession env1 F fp gr files1 db).db.sessions.map SessionRow.session_uuid
        = db.sessions.map SessionRow.session_uuid
    ∧ (scanAndProcessSession env1 F fp gr files1 db).db.sessions.find?
          (fun r => r.session_uuid == derivedSessionId F)
        = some { s with status := "active" }
    ∧ (scanAndProcessSession env2 F fp gr files2
          (scanAndProcessSession env1 F fp gr files1 db).db).effects.head?
        = some (Effect.sessionUpdate (derivedSessionId F))
    ∧ (scanAndProcessSession env2 F fp gr files2
            (scanAndProcessSession env1 F fp gr files1 db).db).db.sessions.map
          SessionRow.session_uuid
        = db.sessions.map SessionRow.session_uuid := by
  have hrun1 := scanAndProcessSession_existing env1 F fp gr files1 db s h11 h12 h13 hfind
  have hsess1 : (scanAndProcessSession env1 F fp gr files1 db).db.sessions
      = activateSession (derivedSessionId F) db.sessions := by
    rw [hrun1, processMedia_sessions]
  have hfind1 : (scanAndProcessSession env1 F fp gr files1 db).db.sessions.find?
      (fun r => r.session_uuid == derivedSessionId F) = some { s with status := "active" } := by
    rw [hsess1]
    exact activateSession_found (derivedSessionId F) db.sessions s hfind
  have hrun2 := scanAndProcessSession_existing env2 F fp gr files2
    (scanAndProcessSession env1 F fp gr files1 db).db { s with status := "active" }
    h21 h22 h23 hfind1
  refine ⟨rfl, ?_, ?_, hfind1, ?_, ?_⟩
  · rw [hrun1]
    obtain ⟨rest, hre⟩ := processMedia_effects env1 (derivedSessionId F) fp
      (pathJoin gr (derivedSessionId F)) (usedFiles env1 files1)
      { db with sessions := activateSession (derivedSessionId F) db.sessions }
      [Effect.sessionUpdate (derivedSessionId F)]
    rw [hre]
    rfl
  · rw [hsess1, activateSession_map_uuid]
  · rw [hrun2]
    obtain ⟨rest, hre⟩ := processMedia_effects env2 (derivedSessionId F) fp
      (pathJoin gr (derivedSessionId F)) (usedFiles env2 files2)
      { (scanAndProcessSession env1 F fp gr files1 db).db with
          sessions := activateSession (derivedSessionId F)
            (scanAndProcessSession env1 F fp gr files1 db).db.sessions }
      [Effect.sessionUpdate (derivedSessionId F)]
    rw [hre]
    rfl
  · rw [hrun2, processMedia_sessions]
    show (activateSession (derivedSessionId F)
        (scanAndProcessSession env1 F fp gr files1 db).db.sessions).map SessionRow.session_uuid
      = db.sessions.map SessionRow.session_uuid
    rw [activateSession_map_uuid, hsess1, activateSession_map_uuid]

/-- Witness for C3: a soft-deleted session `Event1` whose folder holds two
fresh images is reactivated under the same identifier. -/
theorem session_identity_resurrection_witness :
    let env : RunEnv :=
      { folder := { isDirectory := true, entries := [⟨"a.jpg", true⟩, ⟨"b.jpg", true⟩] }
        oracle :=
          { imageMeta := fun _ => some (500, 500)
            imageOk := fun _ => true
            videoOk := fun _ => true }
        txnFails := false
        accessToken := "tok2" }
    let deadRow : SessionRow :=
      { session_uuid := "Event1", folder_name := "Event1"
        status := "deleted", access_token := "tok" }
    let db : DB := ⟨[deadRow], []⟩
    (scanAndProcessSession env "Event1" "/p/Event1" "gal" ["a.jpg", "b.jpg"] db).effects.head?
        = some (Effect.sessionUpdate (derivedSessionId "Event1"))
      ∧ (scanAndProcessSession env "Event1" "/p/Event1" "gal"
            ["a.jpg", "b.jpg"] db).db.sessions.find?
          (fun r => r.session_uuid == derivedSessionId "Event1")
        = some { deadRow with status := "active" } := by
  intro env deadRow db
  have h := session_identity_resurrection env env "Event1" "/p/Event1" "gal"
    ["a.jpg", "b.jpg"] ["a.jpg", "b.jpg"] db deadRow
    (by decide) (by decide) (by decide) (by decide) (by decide) (by decide)
    (by decide) (by decide)
  exact ⟨h.2.1, h.2.2.2.1⟩

/-- C4 (code bug): the watcher's thumbnail pipeline resizes both regular
images and the GIF poster frame with sharp's `cover` fit, which scales to
fill the 1920x1080 canvas and centre-crops, discarding source pixels for any
source whose aspect ratio differs (for instance a 2000x2000 capture); the
letterboxing `contain` fit would preserve all content.  This contradicts the
no-cropping behaviour the claim states (and the correction that the
repository's own regenerate-thumbnails script applies). -/
theorem thumbnail_fit_crops :
    watcherImageThumbFit = SharpFit.cover
    ∧ watcherGifThumbFit = SharpFit.cover
    ∧ fitPreservesAllContent watcherImageThumbFit 2000 2000 THUMB_WIDTH THUMB_HEIGHT = false
    ∧ fitPreservesAllContent SharpFit.contain 2000 2000 THUMB_WIDTH THUMB_HEIGHT = true := by
  decide

/-- C5 counterexample: when the directory enumeration returns
`["b.jpg", "a.jpg"]`, the reconciler's final validated list is exactly that
enumeration order and photo_number 1 is assigned to `"b.jpg"`, although
`"a.jpg"` sorts strictly first — so the final list is not ordered by sorted
original filename for every enumeration order. -/
theorem final_list_not_sorted_cx :
    let folder : Folder :=
      { isDirectory := true, entries := [⟨"b.jpg", true⟩, ⟨"a.jpg", true⟩] }
    let env : RunEnv :=
      { folder := folder
        oracle :=
          { imageMeta := fun _ => some (500, 500)
            imageOk := fun _ => true
            videoOk := fun _ => true }
        txnFails := false
        accessToken := "tok" }
    (scanFolderTree folder).files = ["b.jpg", "a.jpg"]
    ∧ transformLoop env.oracle (scanFolderTree folder).files = ["b.jpg", "a.jpg"]
    ∧ (scanAndProcessSession env "E" "/p/E" "gal"
          (scanFolderTree folder).files ⟨[], []⟩).db.photos.map
          (fun r => (r.photo_number, r.original_path))
        = [(1, "/p/E/b.jpg"), (2, "/p/E/a.jpg")]
    ∧ ("a.jpg" : String) < "b.jpg"
    ∧ transformLoop env.oracle (scanFolderTree folder).files ≠ ["a.jpg", "b.jpg"] := by
  refine ⟨by decide, by decide, by decide, ?_, by decide⟩
  rw [String.lt_iff_toList_lt]
  exact List.Lex.rel (by decide)

/-- C5 amended: the final list of successfully transformed files that
receives the photo numbers preserves the directory enumeration order — it is
the order-preserving filter of the candidate list by per-file transform
success (a sublist of the enumeration order); no sorting by filename is
applied by the reconciler. -/
theorem final_list_enum_order (o : MediaOracle) (fs : List String) :
    transformLoop o fs = fs.filter (keepFile o)
    ∧ (transformLoop o fs).Sublist fs := by
  refine ⟨transformLoop_eq_filter o fs, ?_⟩
  rw [transformLoop_eq_filter]
  exact List.filter_sublist fs

/-- C9: an image file whose decoded width or height is below 100 pixels is
silently dropped by the per-file loop even though its extension is an
accepted image type: it never appears in the validated list, no persisted
Photo row of the session references it, and the remaining files are still
numbered densely 1..N without it. -/
theorem small_image_excluded (env : RunEnv) (F fp gr : String) (photoFiles : List String)
    (db : DB) (g : String) (w h : Nat)
    (h1 : ¬ photoFiles.length < MIN_FILES_PER_SESSION)
    (h2 : env.folder.isDirectory = true)
    (h3 : ¬ (scanFolderTree env.folder).totalFiles < MIN_FILES_PER_SESSION)
    (htxn : env.txnFails = false)
    (himg : isImageFile g = true)
    (hmeta : env.oracle.imageMeta g = some (w, h))
    (hsmall : w < 100 ∨ h < 100) :
    g ∉ transformLoop env.oracle (usedFiles env photoFiles)
    ∧ (∀ r ∈ (scanAndProcessSession env F fp gr photoFiles db).db.photos.filter
          (fun p => p.session_uuid == derivedSessionId F),
        r.original_path ≠ pathJoin fp g)
    ∧ ((scanAndProcessSession env F fp gr photoFiles db).db.photos.filter
          (fun p => p.session_uuid == derivedSessionId F)).map PhotoRow.photo_number
        = (List.range (transformLoop env.oracle (usedFiles env photoFiles)).length).map
            (· + 1) := by
  have hkeep : keepFile env.oracle g = false := by
    unfold keepFile
    rw [image_not_video himg]
    simp only [if_false, himg, if_true, hmeta, Bool.false_eq_true]
    rcases hsmall with hw | hh
    · simp [hw]
    · simp [hh]
  have hnotin : g ∉ transformLoop env.oracle (usedFiles env photoFiles) := by
    rw [transformLoop_eq_filter]
    intro hmem
    have := List.of_mem_filter hmem
    rw [hkeep] at this
    exact Bool.false_ne_true this
  have hphotos := scanAndProcessSession_photos env F fp gr photoFiles db h1 h2 h3 htxn
  refine ⟨hnotin, ?_, ?_⟩
  · intro r hr heq
    rw [hphotos] at hr
    obtain ⟨f, hf, hpath⟩ := newPhotoRows_path _ fp _ _ r hr
    rw [hpath] at heq
    exact hnotin (pathJoin_inj fp heq ▸ hf)
  · rw [hphotos, newPhotoRows_map_number]

/-- Witness for C9: a 50x500 `tiny.jpg` among two healthy images is excluded
while the healthy ones are numbered 1 and 2. -/
theorem small_image_excluded_witness :
    let env : RunEnv :=
      { folder := { isDirectory := true
                    entries := [⟨"a.jpg", true⟩, ⟨"tiny.jpg", true⟩, ⟨"b.jpg", true⟩] }
        oracle :=
          { imageMeta := fun f => if f == "tiny.jpg" then some (50, 500) else some (500, 500)
            imageOk := fun _ => true
            videoOk := fun _ => true }
        txnFails := false
        accessToken := "tok" }
    (50 < 100 ∨ 500 < 100)
    ∧ "tiny.jpg" ∉ transformLoop env.oracle
        (usedFiles env ["a.jpg", "tiny.jpg", "b.jpg"]) := by
  intro env
  refine ⟨Or.inl (by decide), ?_⟩
  exact (small_image_excluded env "Event1" "/p/Event1" "gal" ["a.jpg", "tiny.jpg", "b.jpg"]
    ⟨[], []⟩ "tiny.jpg" 50 500 (by decide) (by decide) (by decide) (by decide)
    (by decide) (by decide) (Or.inl (by decide))).1

theorem debounce_aux (delay : Nat) :
    ∀ (rest : List Nat) (prev tn : Nat), Burst delay prev rest →
      (prev :: rest).getLast? = some tn →
      debounceFires delay rest (some (prev + delay)) = [tn + delay] := by
  intro rest
  induction rest with
  | nil =>
    intro prev tn _ hlast
    simp only [List.getLast?_singleton, Option.some.injEq] at hlast
    rw [hlast]
    rfl
  | cons t rest ih =>
    intro prev tn hb hlast
    obtain ⟨hle, hlt, hb'⟩ := hb
    rw [List.getLast?_cons_cons] at hlast
    unfold debounceFires
    rw [if_neg (by omega)]
    exact ih t tn hb' hlast

/-- C7: for a burst of N ≥ 1 file events for one folder, each arriving
strictly within the debounce window of its predecessor, exactly one
reconciliation attempt fires, and it fires at (time of the last event) +
FOLDER_DEBOUNCE_DELAY — every earlier event's timer is cancelled and replaced
by a fresh full-delay timer. -/
theorem debounce_coalescing (t0 tn : Nat) (rest : List Nat)
    (hb : Burst FOLDER_DEBOUNCE_DELAY t0 rest)
    (hlast : (t0 :: rest).getLast? = some tn) :
    debounceFires FOLDER_DEBOUNCE_DELAY (t0 :: rest) none
      = [tn + FOLDER_DEBOUNCE_DELAY] := by
  show debounceFires FOLDER_DEBOUNCE_DELAY rest (some (t0 + FOLDER_DEBOUNCE_DELAY))
      = [tn + FOLDER_DEBOUNCE_DELAY]
  exact debounce_aux FOLDER_DEBOUNCE_DELAY rest t0 tn hb hlast

/-- Witness for C7: events at 0, 1000 and 4000 ms produce exactly one fire,
at 4000 + 5000 = 9000 ms. -/
theorem debounce_coalescing_witness :
    debounceFires FOLDER_DEBOUNCE_DELAY [0, 1000, 4000] none
      = [4000 + FOLDER_DEBOUNCE_DELAY] := by
  exact debounce_coalescing 0 4000 [1000, 4000]
    ⟨by decide, by decide, by decide, by decide, trivial⟩ (by decide)

/-- C8: if at re-validation time the media-file count differs from the count
of the initial scan, or has fallen below the minimum threshold, the
consistency check returns false and the processing attempt is a no-op: the
database (Session and Photo state) is unchanged and no effect is emitted. -/
theorem consistency_gate_noop (s1 s2 s3 : Folder) (env : RunEnv)
    (F fp gr : String) (db : DB)
    (hmis : (scanFolderTree s3).totalFiles ≠ (scanFolderTree s1).totalFiles
        ∨ (scanFolderTree s3).totalFiles < MIN_FILES_PER_SESSION) :
    validateFolderConsistency s3 (scanFolderTree s1).totalFiles = false
    ∧ (debounceTimerBody s1 s2 s3 env F fp gr db).db = db
    ∧ (debounceTimerBody s1 s2 s3 env F fp gr db).effects = [] := by
  have hv : validateFolderConsistency s3 (scanFolderTree s1).totalFiles = false := by
    unfold validateFolderConsistency
    rcases hmis with hne | hlt
    · rw [if_pos hne]
    · by_cases hne : (scanFolderTree s3).totalFiles ≠ (scanFolderTree s1).totalFiles
      · rw [if_pos hne]
      · rw [if_neg hne, if_pos hlt]
  refine ⟨hv, ?_⟩
  unfold debounceTimerBody
  by_cases hg : (scanFolderTree s1).totalFiles < MIN_FILES_PER_SESSION
  · rw [if_pos hg]; exact ⟨rfl, rfl⟩
  · rw [if_neg hg, hv]
    exact ⟨rfl, rfl⟩

/-- Witness for C8: initial scan sees 2 files, the re-validation scan sees 3
(one arrived mid-write): the attempt leaves the database untouched. -/
theorem consistency_gate_noop_witness :
    let s1 : Folder := { isDirectory := true, entries := [⟨"a.jpg", true⟩, ⟨"b.jpg", true⟩] }
    let s3 : Folder :=
      { isDirectory := true
        entries := [⟨"a.jpg", true⟩, ⟨"b.jpg", true⟩, ⟨"c.jpg", true⟩] }
    let env : RunEnv :=
      { folder := s3
        oracle :=
          { imageMeta := fun _ => some (500, 500)
            imageOk := fun _ => true
            videoOk := fun _ => true }
        txnFails := false
        accessToken := "tok" }
    (debounceTimerBody s1 s3 s3 env "Event1" "/p/Event1" "gal" ⟨[], []⟩).db = ⟨[], []⟩ := by
  intro s1 s3 env
  exact (consistency_gate_noop s1 s3 s3 env "Event1" "/p/Event1" "gal" ⟨[], []⟩
    (Or.inl (by decide))).2.1

theorem sched_step_bound (s : FolderSched) (a : WatchAction) :
    (schedStep s a).armedTimers.length + (schedStep s a).inFlight
      ≤ s.armedTimers.length + s.inFlight
        + (if isFileEvent a then 1 else 0) + (if isManualScan a then 1 else 0) := by
  cases a with
  | fileEvent t =>
    have hc : (match s.mapEntry with
        | some p => s.armedTimers.erase p
        | none => s.armedTimers).length ≤ s.armedTimers.length := by
      cases s.mapEntry with
      | none => exact le_refl _
      | some p => exact (s.armedTimers.erase_sublist p).length_le
    simp only [schedStep, isFileEvent, isManualScan, if_true, if_false, List.length_append,
      List.length_singleton]
    omega
  | timerFire t =>
    simp only [schedStep, isFileEvent, isManualScan, if_false]
    by_cases hc : s.armedTimers.contains t
    · rw [if_pos hc]
      have hmem : t ∈ s.armedTimers := List.mem_of_elem_eq_true hc
      have hlen := List.length_erase_of_mem hmem
      have hpos : 0 < s.armedTimers.length := List.length_pos.mpr (List.ne_nil_of_mem hmem)
      simp only [hlen]
      omega
    · rw [if_neg hc]
      omega
  | manualScan =>
    simp only [schedStep, isFileEvent, isManualScan, if_false, if_true]
    omega
  | reconcileDone =>
    simp only [schedStep, isFileEvent, isManualScan, if_false]
    omega

theorem sched_run_bound_aux :
    ∀ (acts : List WatchAction) (s : FolderSched),
      (acts.foldl schedStep s).armedTimers.length + (acts.foldl schedStep s).inFlight
        ≤ s.armedTimers.length + s.inFlight
          + (acts.filter isFileEvent).length + (acts.filter isManualScan).length := by
  intro acts
  induction acts with
  | nil => intro s; simp
  | cons a rest ih =>
    intro s
    have h1 := ih (schedStep s a)
    have h2 := sched_step_bound s a
    have hfe : ((a :: rest).filter isFileEvent).length
        = (if isFileEvent a then 1 else 0) + (rest.filter isFileEvent).length := by
      rw [List.filter_cons]
      by_cases ha : isFileEvent a
      · rw [if_pos ha, if_pos ha, List.length_cons]; omega
      · rw [if_neg ha, if_neg ha]; omega
    have hms : ((a :: rest).filter isManualScan).length
        = (if isManualScan a then 1 else 0) + (rest.filter isManualScan).length := by
      rw [List.filter_cons]
      by_cases ha : isManualScan a
      · rw [if_pos ha, if_pos ha, List.length_cons]; omega
      · rw [if_neg ha, if_neg ha]; omega
    rw [List.foldl_cons, hfe, hms]
    omega

/-- C6 counterexample: the interleaving "file event at 0ms; its debounce
timer fires at 5000ms and the reconciliation it starts is still running; a
manual scan-media call arrives" leaves two reconciliations for the same
folder in flight at once — there is no folder-local currently-processing
guard. -/
theorem concurrent_reconcile_cx :
    (schedRun [WatchAction.fileEvent 0, WatchAction.timerFire 5000,
        WatchAction.manualScan]).inFlight = 2 := by
  decide

/-- C6 amended: the per-folder timer map deduplicates only at the trigger
level — each file event cancels the referenced pending timer before arming a
fresh one, so armed timers plus in-flight reconciliations never exceed the
number of file events plus manual scan calls — but reconciliations
themselves are not guarded and can overlap for the same folder. -/
theorem sched_trigger_bound (acts : List WatchAction) :
    (schedRun acts).armedTimers.length + (schedRun acts).inFlight
      ≤ (acts.filter isFileEvent).length + (acts.filter isManualScan).length := by
  have h := sched_run_bound_aux acts schedInit
  simpa [schedInit, schedRun] using h

/-- The all-transforms-fail scenario used for the second half of C10. -/
def allFailEnv : RunEnv :=
  { folder := { isDirectory := true, entries := [⟨"a.jpg", true⟩, ⟨"b.jpg", true⟩] }
    oracle :=
      { imageMeta := fun _ => none
        imageOk := fun _ => false
        videoOk := fun _ => false }
    txnFails := false
    accessToken := "tok" }

/-- C10: once a candidate list passes the minimum-file threshold and the
folder checks, the Session persist (the insert plus QR write for a new
session, or the reactivating status update for an existing one) is emitted
before every per-file transform attempt; consequently the session persists
as active even when every transform fails, and the persisted Photo count of
a successful reconcile can be as low as 0, strictly below
MIN_FILES_PER_SESSION. -/
theorem session_persisted_before_transforms (env : RunEnv) (F fp gr : String)
    (photoFiles : List String) (db : DB)
    (h1 : ¬ photoFiles.length < MIN_FILES_PER_SESSION)
    (h2 : env.folder.isDirectory = true)
    (h3 : ¬ (scanFolderTree env.folder).totalFiles < MIN_FILES_PER_SESSION) :
    (db.sessions.find? (fun r => r.session_uuid == derivedSessionId F) = none →
      ∃ rest, (scanAndProcessSession env F fp gr photoFiles db).effects
        = [Effect.sessionInsert (derivedSessionId F), Effect.qrWrite (derivedSessionId F)]
            ++ (usedFiles env photoFiles).map Effect.transformAttempt ++ rest)
    ∧ (∀ s, db.sessions.find? (fun r => r.session_uuid == derivedSessionId F) = some s →
        ∃ rest, (scanAndProcessSession env F fp gr photoFiles db).effects
          = [Effect.sessionUpdate (derivedSessionId F)]
              ++ (usedFiles env photoFiles).map Effect.transformAttempt ++ rest)
    ∧ ((scanAndProcessSession allFailEnv "E" "/p/E" "gal" ["a.jpg", "b.jpg"]
          ⟨[], []⟩).db.sessions.map SessionRow.status = ["active"]
        ∧ (scanAndProcessSession allFailEnv "E" "/p/E" "gal" ["a.jpg", "b.jpg"]
            ⟨[], []⟩).db.photos.length = 0
        ∧ 0 < MIN_FILES_PER_SESSION) := by
  refine ⟨?_, ?_, by decide⟩
  · intro hfind
    rw [scanAndProcessSession_new env F fp gr photoFiles db h1 h2 h3 hfind]
    obtain ⟨rest, hre⟩ := processMedia_effects env (derivedSessionId F) fp
      (pathJoin gr (derivedSessionId F)) (usedFiles env photoFiles)
      { db with sessions := db.sessions ++ [newSessionRow env F] }
      [Effect.sessionInsert (derivedSessionId F), Effect.qrWrite (derivedSessionId F)]
    exact ⟨rest, hre⟩
  · intro s hfind
    rw [scanAndProcessSession_existing env F fp gr photoFiles db s h1 h2 h3 hfind]
    obtain ⟨rest, hre⟩ := processMedia_effects env (derivedSessionId F) fp
      (pathJoin gr (derivedSessionId F)) (usedFiles env photoFiles)
      { db with sessions := activateSession (derivedSessionId F) db.sessions }
      [Effect.sessionUpdate (derivedSessionId F)]
    exact ⟨rest, hre⟩

/-- Witness for C10 at a concrete new two-image session. -/
theorem session_persisted_before_transforms_witness :
    let env : RunEnv :=
      { folder := { isDirectory := true, entries := [⟨"a.jpg", true⟩, ⟨"b.jpg", true⟩] }
        oracle :=
          { imageMeta := fun _ => some (500, 500)
            imageOk := fun _ => true
            videoOk := fun _ => true }
        txnFails := false
        accessToken := "tok" }
    ∃ rest, (scanAndProcessSession env "Event1" "/p/Event1" "gal"
          ["a.jpg", "b.jpg"] ⟨[], []⟩).effects
        = [Effect.sessionInsert (derivedSessionId "Event1"),
           Effect.qrWrite (derivedSessionId "Event1")]
            ++ (usedFiles env ["a.jpg", "b.jpg"]).map Effect.transformAttempt ++ rest := by
  intro env
  exact (session_persisted_before_transforms env "Event1" "/p/Event1" "gal"
    ["a.jpg", "b.jpg"] ⟨[], []⟩ (by decide) (by decide) (by decide)).1 (by decide)

end NewBooth
